import Mathlib

/-!
Shallow embedding of the cxxitimer interval-timer library
(src/src/cxxitimer.cpp, header in src/unnamed/part_002).

Modelling conventions:
* C `double` arithmetic is modelled over `ℚ`; the special IEEE values that
  the library only ever inspects (NaN, ±infinity) are modelled by the sum
  type `DoubleVal`, whose comparison with 0 follows IEEE semantics.
* `timeval` (`time_t tv_sec`, `suseconds_t tv_usec`) is a pair of
  unbounded integers: the claims under verification never exercise
  machine-width overflow.
* `static_cast<time_t>(d)` on a double truncates toward zero, modelled by
  `ratTrunc`; `fmod(x, 1.0)` is `x - trunc(x)`, modelled by `fmod1`.
* The OS clock programmed through `setitimer`/`getitimer` is an explicit
  `ITimerVal` threaded through every operation; syscall success/failure is
  an explicit `Bool` parameter (with the `errno` it would report), since
  the library treats the syscall layer as an external oracle.
* Each fallible method returns `(result, post-timer, post-clock)`: the C++
  methods perform every member write after the last possible `throw`, and
  returning the post state even on the error path lets the frame
  conditions ("state unchanged on failure") be stated as real theorems.
-/

namespace Cxxitimer

/-- number of usec per second (`USEC_PER_SEC` in the source). -/
def USEC_PER_SEC : ℚ := 1000000

/-- C `timeval`: whole seconds and microseconds, both signed integers. -/
structure Timeval where
  tv_sec : ℤ
  tv_usec : ℤ
deriving DecidableEq, Repr

/-- C `itimerval`: reload interval and current value. -/
structure ITimerVal where
  it_interval : Timeval
  it_value : Timeval
deriving DecidableEq, Repr

/-- `STOP_TIMER` constant from the source: zero interval and value. -/
def STOP_TIMER : ITimerVal := ⟨⟨0, 0⟩, ⟨0, 0⟩⟩

/-- Truncation toward zero, the semantics of `static_cast<time_t>` on a
double value. -/
def ratTrunc (q : ℚ) : ℤ := if q < 0 then ⌈q⌉ else ⌊q⌋

/-- `fmod(q, 1.0)`: remainder with the sign of the dividend. -/
def fmod1 (q : ℚ) : ℚ := q - ratTrunc q

/-- `timeval_to_double`: `tv_sec + tv_usec / USEC_PER_SEC`. -/
def timeval_to_double (t : Timeval) : ℚ :=
  (t.tv_sec : ℚ) + (t.tv_usec : ℚ) / USEC_PER_SEC

/-- `double_to_timeval`: truncate the integral part to whole seconds and
`fmod(time, 1.0) * USEC_PER_SEC` (truncated) to microseconds. -/
def double_to_timeval (time : ℚ) : Timeval :=
  ⟨ratTrunc time, ratTrunc (fmod1 time * USEC_PER_SEC)⟩

/-- `operator*(const timeval &, double)`: convert to seconds, multiply,
convert back. -/
def tvMul (left : Timeval) (right : ℚ) : Timeval :=
  double_to_timeval (timeval_to_double left * right)

/-- `operator/(const timeval &, double)`: convert to seconds, divide,
convert back. -/
def tvDiv (left : Timeval) (right : ℚ) : Timeval :=
  double_to_timeval (timeval_to_double left / right)

/-- `operator*(const itimerval &, double)`: componentwise `tvMul`. -/
def itvMul (left : ITimerVal) (right : ℚ) : ITimerVal :=
  ⟨tvMul left.it_interval right, tvMul left.it_value right⟩

/-- `operator/(const itimerval &, double)`: componentwise `tvDiv`. -/
def itvDiv (left : ITimerVal) (right : ℚ) : ITimerVal :=
  ⟨tvDiv left.it_interval right, tvDiv left.it_value right⟩

/-- A C `double` argument as the library observes it: a finite rational,
NaN, or a signed infinity. -/
inductive DoubleVal where
  | finite (q : ℚ)
  | nan
  | inf (pos : Bool)
deriving DecidableEq, Repr

/-- IEEE semantics of `factor <= 0.0`: false for NaN, false for +inf,
true for -inf, the rational comparison otherwise. -/
def DoubleVal.le_zero : DoubleVal → Bool
  | .finite q => decide (q ≤ 0)
  | .nan => false
  | .inf pos => !pos

/-- `std::isnan`. -/
def DoubleVal.isNan : DoubleVal → Bool
  | .nan => true
  | _ => false

/-- `std::isinf`. -/
def DoubleVal.isInf : DoubleVal → Bool
  | .inf _ => true
  | _ => false

/-- The rational payload of a finite double (only ever used after the
finiteness checks have passed). -/
def DoubleVal.toRat : DoubleVal → ℚ
  | .finite q => q
  | _ => 0

/-- The clock types (`ITIMER_REAL` / `ITIMER_VIRTUAL` / `ITIMER_PROF`). -/
def ITIMER_REAL : ℤ := 0

/-- `ITIMER_VIRTUAL`. -/
def ITIMER_VIRTUAL : ℤ := 1

/-- `ITIMER_PROF`. -/
def ITIMER_PROF : ℤ := 2

/-- The error taxonomy of the spec, one constructor per distinct throw
site kind of the source. -/
inductive TimerError where
  | alreadyStarted
  | alreadyStopped
  | notRunning
  | timerRunning
  | invalidSpeedFactor
  | negativeInterval
  | negativeValue
  | degenerateInterval
  | clockProgrammingFailed (errno : ℤ)
  | clockReadFailed (errno : ℤ)
  | instanceExists
deriving DecidableEq, Repr

/-- The `ITimer` instance fields, in source declaration order:
`timer_value`, `timer_interval`, `type`, `speed_factor`, `running`. -/
structure ITimer where
  timer_value : Timeval
  timer_interval : Timeval
  type : ℤ
  speed_factor : ℚ
  running : Bool
deriving DecidableEq, Repr

/-- `ITimer::ITimer(int type, const timeval &interval)`: value and
interval both set to `interval`, speed factor 1.0, not running. -/
def ITimer.construct_tv (type : ℤ) (interval : Timeval) : ITimer :=
  ⟨interval, interval, type, 1, false⟩

/-- `ITimer::ITimer(int type, const timeval &interval, const timeval &value)`. -/
def ITimer.construct_tv2 (type : ℤ) (interval value : Timeval) : ITimer :=
  ⟨value, interval, type, 1, false⟩

/-- `ITimer::ITimer(int type, double interval)`. -/
def ITimer.construct_d (type : ℤ) (interval : ℚ) : ITimer :=
  ⟨double_to_timeval interval, double_to_timeval interval, type, 1, false⟩

/-- `ITimer::ITimer(int type, double interval, double value)`. -/
def ITimer.construct_d2 (type : ℤ) (interval value : ℚ) : ITimer :=
  ⟨double_to_timeval value, double_to_timeval interval, type, 1, false⟩

/-- `ITimer::start`. `ok` is the outcome of the `setitimer` syscall and
`errno` the code it would report on failure. Returns
`(result, post-timer, post-clock)`. -/
def ITimer.start (t : ITimer) (clk : ITimerVal) (ok : Bool) (errno : ℤ) :
    Except TimerError Unit × ITimer × ITimerVal :=
  if t.running then (.error .alreadyStarted, t, clk)
  else
    let timer_val : ITimerVal :=
      ⟨tvDiv t.timer_interval t.speed_factor, tvDiv t.timer_value t.speed_factor⟩
    if timer_val.it_interval.tv_sec < 0 then (.error .negativeInterval, t, clk)
    else if timer_val.it_value.tv_sec < 0 then (.error .negativeValue, t, clk)
    else if timer_val.it_interval.tv_sec = 0 ∧ timer_val.it_interval.tv_usec = 0 then
      (.error .degenerateInterval, t, clk)
    else if !ok then (.error (.clockProgrammingFailed errno), t, clk)
    else (.ok (), { t with running := true }, timer_val)

/-- `ITimer::stop`. The single `setitimer(type, &STOP_TIMER, &timer_val)`
call atomically disables the clock and captures its previous state; on
syscall failure the clock is left unchanged. -/
def ITimer.stop (t : ITimer) (clk : ITimerVal) (ok : Bool) (errno : ℤ) :
    Except TimerError Unit × ITimer × ITimerVal :=
  if !t.running then (.error .alreadyStopped, t, clk)
  else if !ok then (.error (.clockReadFailed errno), t, clk)
  else (.ok (),
        { t with timer_value := tvMul clk.it_value t.speed_factor, running := false },
        STOP_TIMER)

/-- `ITimer::adjust_speed(double new_factor)`: disable the clock capturing
its state (`ok1`), rebuild `val` with `it_interval = timer_interval /
new_factor` and `it_value *= speed_factor / new_factor`, reprogram
(`ok2`), and only then store `speed_factor = new_factor`. After a
successful first syscall the clock is disabled, so a failing second
syscall leaves it at `STOP_TIMER`. -/
def ITimer.adjust_speed (t : ITimer) (new_factor : ℚ) (clk : ITimerVal)
    (ok1 ok2 : Bool) (errno1 errno2 : ℤ) :
    Except TimerError Unit × ITimer × ITimerVal :=
  if !t.running then (.error .notRunning, t, clk)
  else if !ok1 then (.error (.clockProgrammingFailed errno1), t, clk)
  else
    let val : ITimerVal :=
      ⟨tvDiv t.timer_interval new_factor,
       tvMul clk.it_value (t.speed_factor / new_factor)⟩
    if !ok2 then (.error (.clockProgrammingFailed errno2), t, STOP_TIMER)
    else (.ok (), { t with speed_factor := new_factor }, val)

/-- `ITimer::set_speed_factor(double factor)`: reject `factor <= 0.0`,
then `isnan`/`isinf`; when running delegate to `adjust_speed`, otherwise
store the factor directly. -/
def ITimer.set_speed_factor (t : ITimer) (factor : DoubleVal) (clk : ITimerVal)
    (ok1 ok2 : Bool) (errno1 errno2 : ℤ) :
    Except TimerError Unit × ITimer × ITimerVal :=
  if factor.le_zero then (.error .invalidSpeedFactor, t, clk)
  else if factor.isNan || factor.isInf then (.error .invalidSpeedFactor, t, clk)
  else if t.running then t.adjust_speed factor.toRat clk ok1 ok2 errno1 errno2
  else (.ok (), { t with speed_factor := factor.toRat }, clk)

/-- `ITimer::set_interval_value(const timeval &, const timeval &)`. -/
def ITimer.set_interval_value (t : ITimer) (interval value : Timeval) :
    Except TimerError Unit × ITimer :=
  if t.running then (.error .timerRunning, t)
  else (.ok (), { t with timer_interval := interval, timer_value := value })

/-- `ITimer::set_interval_value(double, double)`. -/
def ITimer.set_interval_value_d (t : ITimer) (interval value : ℚ) :
    Except TimerError Unit × ITimer :=
  t.set_interval_value (double_to_timeval interval) (double_to_timeval value)

/-- `ITimer::set_speed_to_normal`. -/
def ITimer.set_speed_to_normal (t : ITimer) (clk : ITimerVal)
    (ok1 ok2 : Bool) (errno1 errno2 : ℤ) :
    Except TimerError Unit × ITimer × ITimerVal :=
  if t.running then t.adjust_speed 1 clk ok1 ok2 errno1 errno2
  else (.ok (), { t with speed_factor := 1 }, clk)

/-- `ITimer::get_timer_value`: a `const` method; returns the live clock
value when running (after a non-destructive `getitimer`, outcome `ok`),
the stored `timer_value` otherwise. Post timer and clock are returned to
state the frame condition. -/
def ITimer.get_timer_value (t : ITimer) (clk : ITimerVal) (ok : Bool) (errno : ℤ) :
    Except TimerError Timeval × ITimer × ITimerVal :=
  if t.running then
    if !ok then (.error (.clockReadFailed errno), t, clk)
    else (.ok clk.it_value, t, clk)
  else (.ok t.timer_value, t, clk)

/-- `ITimer::to_fstream`: appends one fixed-size `itimerval` record to
the stream. When running it reads the live clock (`getitimer`, outcome
`ok`) and multiplies the captured `it_value` by `speed_factor`; when
stopped it uses the stored `timer_value`. In both cases `it_interval` is
then overwritten with the stored `timer_interval`. -/
def ITimer.to_fstream (t : ITimer) (clk : ITimerVal) (ok : Bool) (errno : ℤ)
    (stream : List ITimerVal) :
    Except TimerError Unit × List ITimerVal :=
  if t.running then
    if !ok then (.error (.clockReadFailed errno), stream)
    else (.ok (), stream ++ [⟨t.timer_interval, tvMul clk.it_value t.speed_factor⟩])
  else (.ok (), stream ++ [⟨t.timer_interval, t.timer_value⟩])

/-- `ITimer::from_fstream`: only while stopped; reads one record (a short
read leaves the zero-initialised `val {}`, modelled by `headD`) and
overwrites both normalized fields. -/
def ITimer.from_fstream (t : ITimer) (stream : List ITimerVal) :
    Except TimerError Unit × ITimer :=
  if t.running then (.error .timerRunning, t)
  else
    let val := stream.headD ⟨⟨0, 0⟩, ⟨0, 0⟩⟩
    (.ok (), { t with timer_interval := val.it_interval, timer_value := val.it_value })

/-- The clock kinds of the three concrete subclasses. -/
inductive ClockKind where
  | real
  | virt
  | prof
deriving DecidableEq, Repr

/-- The three per-class `static bool instance_exists` flags. -/
structure SingletonFlags where
  real_exists : Bool
  virtual_exists : Bool
  prof_exists : Bool
deriving DecidableEq, Repr

/-- Look up a kind's flag. -/
def SingletonFlags.get (f : SingletonFlags) : ClockKind → Bool
  | .real => f.real_exists
  | .virt => f.virtual_exists
  | .prof => f.prof_exists

/-- Overwrite a kind's flag. -/
def SingletonFlags.set (f : SingletonFlags) : ClockKind → Bool → SingletonFlags
  | .real, b => { f with real_exists := b }
  | .virt, b => { f with virtual_exists := b }
  | .prof, b => { f with prof_exists := b }

/-- The `int type` value a kind passes to the base constructor. -/
def ClockKind.itimer_type : ClockKind → ℤ
  | .real => ITIMER_REAL
  | .virt => ITIMER_VIRTUAL
  | .prof => ITIMER_PROF

/-- The constructor body shared by every `ITimer_Real` / `ITimer_Virtual`
/ `ITimer_Prof` overload: the base `ITimer` subobject is built first, then
`if (instance_exists) throw std::logic_error("instance exists");
instance_exists = true;`. `base` is the timer produced by whichever base
constructor overload was delegated to. -/
def construct_kind (k : ClockKind) (flags : SingletonFlags) (base : ITimer) :
    Except TimerError ITimer × SingletonFlags :=
  if flags.get k then (.error .instanceExists, flags)
  else (.ok base, flags.set k true)

/-- `ITimer_Real::ITimer_Real(const timeval&, const timeval&)` (the other
overloads differ only in the delegated base constructor). -/
def ITimer_Real.construct (flags : SingletonFlags) (interval value : Timeval) :
    Except TimerError ITimer × SingletonFlags :=
  construct_kind .real flags (ITimer.construct_tv2 ITIMER_REAL interval value)

/-- `ITimer_Virtual::ITimer_Virtual(const timeval&, const timeval&)`. -/
def ITimer_Virtual.construct (flags : SingletonFlags) (interval value : Timeval) :
    Except TimerError ITimer × SingletonFlags :=
  construct_kind .virt flags (ITimer.construct_tv2 ITIMER_VIRTUAL interval value)

/-- `ITimer_Prof.construct`: `ITimer_Prof::ITimer_Prof(const timeval&, const timeval&)`. -/
def ITimer_Prof.construct (flags : SingletonFlags) (interval value : Timeval) :
    Except TimerError ITimer × SingletonFlags :=
  construct_kind .prof flags (ITimer.construct_tv2 ITIMER_PROF interval value)

/-- The destructor body of each concrete subclass: unconditionally clear
that kind's `instance_exists` flag. -/
def destruct_kind (k : ClockKind) (flags : SingletonFlags) : SingletonFlags :=
  flags.set k false

/-! ### Evaluation helpers

`Rat` arithmetic is irreducible to the kernel, so concrete runs of the
duration arithmetic are evaluated through the following lemmas. -/

/-- Characterisation of truncation toward zero by rational bounds. -/
theorem ratTrunc_eval (q : ℚ) (z : ℤ)
    (h : ((0:ℚ) ≤ q ∧ (z:ℚ) ≤ q ∧ q < z + 1) ∨ (q < 0 ∧ (z:ℚ) - 1 < q ∧ q ≤ z)) :
    ratTrunc q = z := by
  unfold ratTrunc
  rcases h with ⟨h0, h1, h2⟩ | ⟨h0, h1, h2⟩
  · rw [if_neg (not_lt.mpr h0)]
    exact Int.floor_eq_iff.mpr ⟨h1, h2⟩
  · rw [if_pos h0]
    exact Int.ceil_eq_iff.mpr ⟨h1, h2⟩

/-- Evaluate `double_to_timeval` from the truncations of its parts. -/
theorem double_to_timeval_eval (q : ℚ) (s u : ℤ) (hs : ratTrunc q = s)
    (hu : ratTrunc ((q - (s:ℚ)) * USEC_PER_SEC) = u) :
    double_to_timeval q = ⟨s, u⟩ := by
  unfold double_to_timeval fmod1
  rw [hs]
  exact congrArg (Timeval.mk s) hu

/-- Evaluate `tvMul` through the seconds-real product. -/
theorem tvMul_eval (l : Timeval) (r q : ℚ) (hq : timeval_to_double l * r = q) :
    tvMul l r = double_to_timeval q := by
  unfold tvMul
  rw [hq]

/-- Evaluate `tvDiv` through the seconds-real quotient. -/
theorem tvDiv_eval (l : Timeval) (r q : ℚ) (hq : timeval_to_double l / r = q) :
    tvDiv l r = double_to_timeval q := by
  unfold tvDiv
  rw [hq]

/-- Concrete run: 3.0 s scaled by factor 2 is 6.0 s. -/
theorem tvMul_three_by_two : tvMul ⟨3, 0⟩ 2 = ⟨6, 0⟩ :=
  (tvMul_eval ⟨3, 0⟩ 2 6 (by norm_num [timeval_to_double, USEC_PER_SEC])).trans
    (double_to_timeval_eval 6 6 0
      (ratTrunc_eval 6 6 (by norm_num))
      (ratTrunc_eval _ 0 (by norm_num [USEC_PER_SEC])))

/-- Concrete run: 1.0 s scaled by factor 2 is 2.0 s. -/
theorem tvMul_one_by_two : tvMul ⟨1, 0⟩ 2 = ⟨2, 0⟩ :=
  (tvMul_eval ⟨1, 0⟩ 2 2 (by norm_num [timeval_to_double, USEC_PER_SEC])).trans
    (double_to_timeval_eval 2 2 0
      (ratTrunc_eval 2 2 (by norm_num))
      (ratTrunc_eval _ 0 (by norm_num [USEC_PER_SEC])))

/-- Concrete run: 1.0 s scaled by factor 1/2 is 0.5 s. -/
theorem tvMul_one_by_half : tvMul ⟨1, 0⟩ (1 / 2) = ⟨0, 500000⟩ :=
  (tvMul_eval ⟨1, 0⟩ (1 / 2) (1 / 2) (by norm_num [timeval_to_double, USEC_PER_SEC])).trans
    (double_to_timeval_eval (1 / 2) 0 500000
      (ratTrunc_eval (1 / 2) 0 (by norm_num))
      (ratTrunc_eval _ 500000 (by norm_num [USEC_PER_SEC])))

/-- Concrete run: 4.0 s divided by factor 2 is 2.0 s. -/
theorem tvDiv_four_by_two : tvDiv ⟨4, 0⟩ 2 = ⟨2, 0⟩ :=
  (tvDiv_eval ⟨4, 0⟩ 2 2 (by norm_num [timeval_to_double, USEC_PER_SEC])).trans
    (double_to_timeval_eval 2 2 0
      (ratTrunc_eval 2 2 (by norm_num))
      (ratTrunc_eval _ 0 (by norm_num [USEC_PER_SEC])))

/-- Concrete run: 4.0 s divided by factor 1 is 4.0 s. -/
theorem tvDiv_four_by_one : tvDiv ⟨4, 0⟩ 1 = ⟨4, 0⟩ :=
  (tvDiv_eval ⟨4, 0⟩ 1 4 (by norm_num [timeval_to_double, USEC_PER_SEC])).trans
    (double_to_timeval_eval 4 4 0
      (ratTrunc_eval 4 4 (by norm_num))
      (ratTrunc_eval _ 0 (by norm_num [USEC_PER_SEC])))

/-- Concrete run: 2.0 s divided by factor 1 is 2.0 s. -/
theorem tvDiv_two_by_one : tvDiv ⟨2, 0⟩ 1 = ⟨2, 0⟩ :=
  (tvDiv_eval ⟨2, 0⟩ 1 2 (by norm_num [timeval_to_double, USEC_PER_SEC])).trans
    (double_to_timeval_eval 2 2 0
      (ratTrunc_eval 2 2 (by norm_num))
      (ratTrunc_eval _ 0 (by norm_num [USEC_PER_SEC])))

/-- Concrete run: 1.0 s divided by factor 1 is 1.0 s. -/
theorem tvDiv_one_by_one : tvDiv ⟨1, 0⟩ 1 = ⟨1, 0⟩ :=
  (tvDiv_eval ⟨1, 0⟩ 1 1 (by norm_num [timeval_to_double, USEC_PER_SEC])).trans
    (double_to_timeval_eval 1 1 0
      (ratTrunc_eval 1 1 (by norm_num))
      (ratTrunc_eval _ 0 (by norm_num [USEC_PER_SEC])))

/-- Concrete run: the timeval `{0 s, -5 us}` divided by factor 1 is itself:
the negative sub-second part survives the real round trip. -/
theorem tvDiv_negusec_by_one : tvDiv ⟨0, -5⟩ 1 = ⟨0, -5⟩ :=
  (tvDiv_eval ⟨0, -5⟩ 1 (-5 / 1000000) (by norm_num [timeval_to_double, USEC_PER_SEC])).trans
    (double_to_timeval_eval (-5 / 1000000) 0 (-5)
      (ratTrunc_eval (-5 / 1000000) 0 (by norm_num))
      (ratTrunc_eval _ (-5) (by norm_num [USEC_PER_SEC])))

/-! ### Claim theorems -/

/-- C1, counterexample: the claim states that a Running `get_timer_value`
un-scales the live remaining-value by the current `speed_factor`. On a
running timer with `speed_factor = 2` and live remaining-value 3.0 s the
un-scaled (normalized) value would be 6.0 s, but the code returns the raw
live value 3.0 s. -/
theorem C1_counterexample :
    ((⟨⟨9, 9⟩, ⟨4, 0⟩, 0, 2, true⟩ : ITimer).get_timer_value ⟨⟨2, 0⟩, ⟨3, 0⟩⟩ true 0).1
        = .ok ⟨3, 0⟩
    ∧ tvMul ⟨3, 0⟩ (2 : ℚ) = ⟨6, 0⟩
    ∧ (⟨3, 0⟩ : Timeval) ≠ ⟨6, 0⟩ :=
  ⟨rfl, tvMul_three_by_two, by decide⟩

/-- C1 (amended): `get_timer_value` returns the stored normalized value
when the timer is Stopped; when Running it reads the live clock
non-destructively and returns the raw (speed-scaled) live remaining-value
without un-scaling it by `speed_factor`, failing only on a clock read
error; in neither case does it mutate any timer field. -/
theorem C1_get_timer_value (t : ITimer) (clk : ITimerVal) (ok : Bool) (errno : ℤ) :
    (t.running = false →
      t.get_timer_value clk ok errno = (.ok t.timer_value, t, clk))
    ∧ (t.running = true → ok = true →
      t.get_timer_value clk ok errno = (.ok clk.it_value, t, clk))
    ∧ (t.running = true → ok = false →
      t.get_timer_value clk ok errno = (.error (.clockReadFailed errno), t, clk)) := by
  refine ⟨fun h => ?_, fun h hok => ?_, fun h hok => ?_⟩
  · simp [ITimer.get_timer_value, h]
  · simp [ITimer.get_timer_value, h, hok]
  · simp [ITimer.get_timer_value, h, hok]

/-- C1 witness: a running timer with speed factor 2 and live value 3.0 s
yields the raw live value and unchanged state. -/
theorem C1_get_timer_value_witness :
    (⟨⟨9, 9⟩, ⟨4, 0⟩, 0, 2, true⟩ : ITimer).get_timer_value ⟨⟨2, 0⟩, ⟨3, 0⟩⟩ true 0
      = (.ok ⟨3, 0⟩, ⟨⟨9, 9⟩, ⟨4, 0⟩, 0, 2, true⟩, ⟨⟨2, 0⟩, ⟨3, 0⟩⟩) :=
  (C1_get_timer_value ⟨⟨9, 9⟩, ⟨4, 0⟩, 0, 2, true⟩ ⟨⟨2, 0⟩, ⟨3, 0⟩⟩ true 0).2.1 rfl rfl

/-- C4: on a Running timer a successful `stop` sets `timer_value` to the
captured live remaining-value multiplied by the current `speed_factor`,
clears `running`, and leaves `timer_interval`, `type` and `speed_factor`
unchanged; `stop` on a Stopped timer fails with `AlreadyStopped`, and a
failed clock syscall leaves the timer Running with all fields unchanged. -/
theorem C4_stop (t : ITimer) (clk : ITimerVal) (ok : Bool) (errno : ℤ) :
    (t.running = false → t.stop clk ok errno = (.error .alreadyStopped, t, clk))
    ∧ (t.running = true → ok = false →
      t.stop clk ok errno = (.error (.clockReadFailed errno), t, clk))
    ∧ (t.running = true → ok = true →
      t.stop clk ok errno =
        (.ok (), ⟨tvMul clk.it_value t.speed_factor, t.timer_interval,
                  t.type, t.speed_factor, false⟩, STOP_TIMER)) := by
  refine ⟨fun h => ?_, fun h hok => ?_, fun h hok => ?_⟩
  · simp [ITimer.stop, h]
  · simp [ITimer.stop, h, hok]
  · simp [ITimer.stop, h, hok]

/-- C4 witness: stopping a running timer with speed factor 2 and live
remaining-value 3.0 s stores the normalized 6.0 s, clears `running`, and
keeps the interval and speed factor. -/
theorem C4_stop_witness :
    (⟨⟨9, 0⟩, ⟨4, 0⟩, 0, 2, true⟩ : ITimer).stop ⟨⟨2, 0⟩, ⟨3, 0⟩⟩ true 0
      = (.ok (), ⟨⟨6, 0⟩, ⟨4, 0⟩, 0, 2, false⟩, STOP_TIMER) :=
  ((C4_stop ⟨⟨9, 0⟩, ⟨4, 0⟩, 0, 2, true⟩ ⟨⟨2, 0⟩, ⟨3, 0⟩⟩ true 0).2.2 rfl rfl).trans
    (by rw [tvMul_three_by_two])

/-- C9: `set_interval_value` on a Running timer fails with `TimerRunning`
and leaves every field unchanged; on a Stopped timer it overwrites both
normalized fields unconditionally with the given values (no validation,
in particular `value > interval` is accepted), leaving `type`,
`speed_factor` and `running` unchanged. -/
theorem C9_set_interval_value (t : ITimer) (interval value : Timeval) :
    (t.running = true →
      t.set_interval_value interval value = (.error .timerRunning, t))
    ∧ (t.running = false →
      t.set_interval_value interval value
        = (.ok (), ⟨value, interval, t.type, t.speed_factor, t.running⟩)) := by
  refine ⟨fun h => ?_, fun h => ?_⟩ <;>
    simp [ITimer.set_interval_value, h]

/-- C9 witness: setting interval 1.0 s with value 5.0 s (value greater
than interval) on a stopped timer succeeds and stores both; the same call
on a running timer fails with `TimerRunning` and changes nothing. -/
theorem C9_set_interval_value_witness :
    (⟨⟨2, 0⟩, ⟨4, 0⟩, 0, 1, false⟩ : ITimer).set_interval_value ⟨1, 0⟩ ⟨5, 0⟩
      = (.ok (), ⟨⟨5, 0⟩, ⟨1, 0⟩, 0, 1, false⟩)
    ∧ (⟨⟨2, 0⟩, ⟨4, 0⟩, 0, 1, true⟩ : ITimer).set_interval_value ⟨1, 0⟩ ⟨5, 0⟩
      = (.error .timerRunning, ⟨⟨2, 0⟩, ⟨4, 0⟩, 0, 1, true⟩) :=
  ⟨(C9_set_interval_value ⟨⟨2, 0⟩, ⟨4, 0⟩, 0, 1, false⟩ ⟨1, 0⟩ ⟨5, 0⟩).2 rfl,
   (C9_set_interval_value ⟨⟨2, 0⟩, ⟨4, 0⟩, 0, 1, true⟩ ⟨1, 0⟩ ⟨5, 0⟩).1 rfl⟩

/-- C2: for a Running timer and a finite strictly positive factor `f`,
`set_speed_factor f` performs the `adjust_speed` sequence: it captures the
live state while disabling the clock, reprograms it with
`it_interval = timer_interval / f` and
`it_value = captured_value * (speed_factor / f)` (scaling the captured
live value directly, not via the normalized form), and stores
`speed_factor = f` only after the reprogramming syscall succeeded; if
either syscall fails, the error is reported and every timer field — in
particular `speed_factor` — keeps its old value. -/
theorem C2_set_speed_factor_running (t : ITimer) (clk : ITimerVal) (f : ℚ)
    (hrun : t.running = true) (hf : 0 < f) (errno1 errno2 : ℤ) :
    (t.set_speed_factor (.finite f) clk true true errno1 errno2
      = (.ok (), ⟨t.timer_value, t.timer_interval, t.type, f, t.running⟩,
         ⟨tvDiv t.timer_interval f, tvMul clk.it_value (t.speed_factor / f)⟩))
    ∧ (∀ ok2, t.set_speed_factor (.finite f) clk false ok2 errno1 errno2
      = (.error (.clockProgrammingFailed errno1), t, clk))
    ∧ (t.set_speed_factor (.finite f) clk true false errno1 errno2
      = (.error (.clockProgrammingFailed errno2), t, STOP_TIMER)) := by
  have hle : DoubleVal.le_zero (.finite f) = false := by
    simp [DoubleVal.le_zero, not_le.mpr hf]
  refine ⟨?_, fun ok2 => ?_, ?_⟩ <;>
    simp [ITimer.set_speed_factor, ITimer.adjust_speed, hle,
          DoubleVal.isNan, DoubleVal.isInf, DoubleVal.toRat, hrun]

/-- C2 witness: on a running timer with speed factor 1, interval 4.0 s and
live remaining-value 1.0 s, `set_speed_factor 2` reprograms the clock with
interval 2.0 s and value 0.5 s and stores the factor 2; with a failing
first or second syscall it reports the error and the timer keeps factor 1. -/
theorem C2_set_speed_factor_running_witness :
    ((⟨⟨1, 0⟩, ⟨4, 0⟩, 0, 1, true⟩ : ITimer).set_speed_factor (.finite 2)
        ⟨⟨4, 0⟩, ⟨1, 0⟩⟩ true true 0 0
      = (.ok (), ⟨⟨1, 0⟩, ⟨4, 0⟩, 0, 2, true⟩, ⟨⟨2, 0⟩, ⟨0, 500000⟩⟩))
    ∧ ((⟨⟨1, 0⟩, ⟨4, 0⟩, 0, 1, true⟩ : ITimer).set_speed_factor (.finite 2)
        ⟨⟨4, 0⟩, ⟨1, 0⟩⟩ false true 7 0
      = (.error (.clockProgrammingFailed 7), ⟨⟨1, 0⟩, ⟨4, 0⟩, 0, 1, true⟩,
         ⟨⟨4, 0⟩, ⟨1, 0⟩⟩)) :=
  ⟨((C2_set_speed_factor_running ⟨⟨1, 0⟩, ⟨4, 0⟩, 0, 1, true⟩ ⟨⟨4, 0⟩, ⟨1, 0⟩⟩ 2
        rfl (by norm_num) 0 0).1).trans
      (by rw [tvDiv_four_by_two, show ((1 : ℚ) / 2) = 1 / 2 from rfl, tvMul_one_by_half]),
   (C2_set_speed_factor_running ⟨⟨1, 0⟩, ⟨4, 0⟩, 0, 1, true⟩ ⟨⟨4, 0⟩, ⟨1, 0⟩⟩ 2
        rfl (by norm_num) 7 0).2.1 true⟩

/-- C3: `start` fails with `AlreadyStarted` on a Running timer; on a
Stopped timer it fails with `NegativeInterval` or `NegativeValue` when
the scaled interval or value has a negative whole-seconds field, with
`DegenerateInterval` when the scaled interval is zero in both fields, and
with `ClockProgrammingFailed` when the programming syscall fails; every
failure leaves all fields unchanged (still Stopped), and only on success
does the timer transition to Running, the clock being programmed with the
scaled pair. -/
theorem C3_start (t : ITimer) (clk : ITimerVal) (ok : Bool) (errno : ℤ) :
    (t.running = true → t.start clk ok errno = (.error .alreadyStarted, t, clk))
    ∧ (t.running = false →
      ((tvDiv t.timer_interval t.speed_factor).tv_sec < 0 →
        t.start clk ok errno = (.error .negativeInterval, t, clk))
      ∧ (¬ (tvDiv t.timer_interval t.speed_factor).tv_sec < 0 →
         (tvDiv t.timer_value t.speed_factor).tv_sec < 0 →
        t.start clk ok errno = (.error .negativeValue, t, clk))
      ∧ (¬ (tvDiv t.timer_interval t.speed_factor).tv_sec < 0 →
         ¬ (tvDiv t.timer_value t.speed_factor).tv_sec < 0 →
         (tvDiv t.timer_interval t.speed_factor).tv_sec = 0 ∧
           (tvDiv t.timer_interval t.speed_factor).tv_usec = 0 →
        t.start clk ok errno = (.error .degenerateInterval, t, clk))
      ∧ (¬ (tvDiv t.timer_interval t.speed_factor).tv_sec < 0 →
         ¬ (tvDiv t.timer_value t.speed_factor).tv_sec < 0 →
         ¬ ((tvDiv t.timer_interval t.speed_factor).tv_sec = 0 ∧
            (tvDiv t.timer_interval t.speed_factor).tv_usec = 0) →
         ok = false →
        t.start clk ok errno = (.error (.clockProgrammingFailed errno), t, clk))
      ∧ (¬ (tvDiv t.timer_interval t.speed_factor).tv_sec < 0 →
         ¬ (tvDiv t.timer_value t.speed_factor).tv_sec < 0 →
         ¬ ((tvDiv t.timer_interval t.speed_factor).tv_sec = 0 ∧
            (tvDiv t.timer_interval t.speed_factor).tv_usec = 0) →
         ok = true →
        t.start clk ok errno
          = (.ok (), ⟨t.timer_value, t.timer_interval, t.type, t.speed_factor, true⟩,
             ⟨tvDiv t.timer_interval t.speed_factor,
              tvDiv t.timer_value t.speed_factor⟩))) := by
  refine ⟨fun h => ?_, fun h => ⟨fun h1 => ?_, fun h1 h2 => ?_,
    fun h1 h2 h3 => ?_, fun h1 h2 h3 hok => ?_, fun h1 h2 h3 hok => ?_⟩⟩
  · simp [ITimer.start, h]
  · simp [ITimer.start, h, h1]
  · simp [ITimer.start, h, h1, h2]
  · simp [ITimer.start, h, h1, h2, h3]
  · simp [ITimer.start, h, h1, h2, h3, hok]
  · simp [ITimer.start, h, h1, h2, h3, hok]

/-- C3 witness: a stopped timer with interval 4.0 s, value 2.0 s and speed
factor 1 starts successfully, transitioning to Running with the clock
programmed to the scaled pair; a running timer fails with
`AlreadyStarted` and is unchanged. -/
theorem C3_start_witness :
    ((⟨⟨2, 0⟩, ⟨4, 0⟩, 0, 1, false⟩ : ITimer).start ⟨⟨0, 0⟩, ⟨0, 0⟩⟩ true 0
      = (.ok (), ⟨⟨2, 0⟩, ⟨4, 0⟩, 0, 1, true⟩, ⟨⟨4, 0⟩, ⟨2, 0⟩⟩))
    ∧ ((⟨⟨2, 0⟩, ⟨4, 0⟩, 0, 1, true⟩ : ITimer).start ⟨⟨0, 0⟩, ⟨0, 0⟩⟩ true 0
      = (.error .alreadyStarted, ⟨⟨2, 0⟩, ⟨4, 0⟩, 0, 1, true⟩, ⟨⟨0, 0⟩, ⟨0, 0⟩⟩)) :=
  ⟨(((C3_start ⟨⟨2, 0⟩, ⟨4, 0⟩, 0, 1, false⟩ ⟨⟨0, 0⟩, ⟨0, 0⟩⟩ true 0).2 rfl).2.2.2.2
      (by rw [tvDiv_four_by_one]; decide) (by rw [tvDiv_two_by_one]; decide)
      (by rw [tvDiv_four_by_one]; decide) rfl).trans
    (by rw [tvDiv_four_by_one, tvDiv_two_by_one]),
   (C3_start ⟨⟨2, 0⟩, ⟨4, 0⟩, 0, 1, true⟩ ⟨⟨0, 0⟩, ⟨0, 0⟩⟩ true 0).1 rfl⟩

/-- C8: `set_speed_factor` rejects every zero, negative, NaN or infinite
argument with `InvalidSpeedFactor`, leaving the timer and the clock
unchanged, in every state; on a Stopped timer every finite strictly
positive argument is stored as the new `speed_factor` with no other
effect. -/
theorem C8_speed_factor_validation (t : ITimer) (clk : ITimerVal) (ok1 ok2 : Bool)
    (errno1 errno2 : ℤ) :
    (∀ q : ℚ, q ≤ 0 →
      t.set_speed_factor (.finite q) clk ok1 ok2 errno1 errno2
        = (.error .invalidSpeedFactor, t, clk))
    ∧ (t.set_speed_factor .nan clk ok1 ok2 errno1 errno2
        = (.error .invalidSpeedFactor, t, clk))
    ∧ (∀ pos, t.set_speed_factor (.inf pos) clk ok1 ok2 errno1 errno2
        = (.error .invalidSpeedFactor, t, clk))
    ∧ (∀ q : ℚ, 0 < q → t.running = false →
      t.set_speed_factor (.finite q) clk ok1 ok2 errno1 errno2
        = (.ok (), ⟨t.timer_value, t.timer_interval, t.type, q, t.running⟩, clk)) := by
  refine ⟨fun q hq => ?_, ?_, fun pos => ?_, fun q hq hrun => ?_⟩
  · simp [ITimer.set_speed_factor, DoubleVal.le_zero, hq]
  · simp [ITimer.set_speed_factor, DoubleVal.le_zero, DoubleVal.isNan]
  · cases pos <;>
      simp [ITimer.set_speed_factor, DoubleVal.le_zero, DoubleVal.isNan, DoubleVal.isInf]
  · have hle : DoubleVal.le_zero (.finite q) = false := by
      simp [DoubleVal.le_zero, not_le.mpr hq]
    simp [ITimer.set_speed_factor, hle, DoubleVal.isNan, DoubleVal.isInf,
          DoubleVal.toRat, hrun]

/-- C8 witness: on a stopped timer, `set_speed_factor` of 0, -1, NaN and
+infinity each fail with `InvalidSpeedFactor` leaving the state intact,
while factor 2 is stored. -/
theorem C8_speed_factor_validation_witness :
    ((⟨⟨2, 0⟩, ⟨4, 0⟩, 0, 1, false⟩ : ITimer).set_speed_factor (.finite 0)
        ⟨⟨0, 0⟩, ⟨0, 0⟩⟩ true true 0 0
      = (.error .invalidSpeedFactor, ⟨⟨2, 0⟩, ⟨4, 0⟩, 0, 1, false⟩, ⟨⟨0, 0⟩, ⟨0, 0⟩⟩))
    ∧ ((⟨⟨2, 0⟩, ⟨4, 0⟩, 0, 1, false⟩ : ITimer).set_speed_factor (.finite (-1))
        ⟨⟨0, 0⟩, ⟨0, 0⟩⟩ true true 0 0
      = (.error .invalidSpeedFactor, ⟨⟨2, 0⟩, ⟨4, 0⟩, 0, 1, false⟩, ⟨⟨0, 0⟩, ⟨0, 0⟩⟩))
    ∧ ((⟨⟨2, 0⟩, ⟨4, 0⟩, 0, 1, false⟩ : ITimer).set_speed_factor .nan
        ⟨⟨0, 0⟩, ⟨0, 0⟩⟩ true true 0 0
      = (.error .invalidSpeedFactor, ⟨⟨2, 0⟩, ⟨4, 0⟩, 0, 1, false⟩, ⟨⟨0, 0⟩, ⟨0, 0⟩⟩))
    ∧ ((⟨⟨2, 0⟩, ⟨4, 0⟩, 0, 1, false⟩ : ITimer).set_speed_factor (.inf true)
        ⟨⟨0, 0⟩, ⟨0, 0⟩⟩ true true 0 0
      = (.error .invalidSpeedFactor, ⟨⟨2, 0⟩, ⟨4, 0⟩, 0, 1, false⟩, ⟨⟨0, 0⟩, ⟨0, 0⟩⟩))
    ∧ ((⟨⟨2, 0⟩, ⟨4, 0⟩, 0, 1, false⟩ : ITimer).set_speed_factor (.finite 2)
        ⟨⟨0, 0⟩, ⟨0, 0⟩⟩ true true 0 0
      = (.ok (), ⟨⟨2, 0⟩, ⟨4, 0⟩, 0, 2, false⟩, ⟨⟨0, 0⟩, ⟨0, 0⟩⟩)) :=
  ⟨(C8_speed_factor_validation ⟨⟨2, 0⟩, ⟨4, 0⟩, 0, 1, false⟩ ⟨⟨0, 0⟩, ⟨0, 0⟩⟩
      true true 0 0).1 0 le_rfl,
   (C8_speed_factor_validation ⟨⟨2, 0⟩, ⟨4, 0⟩, 0, 1, false⟩ ⟨⟨0, 0⟩, ⟨0, 0⟩⟩
      true true 0 0).1 (-1) (by norm_num),
   (C8_speed_factor_validation ⟨⟨2, 0⟩, ⟨4, 0⟩, 0, 1, false⟩ ⟨⟨0, 0⟩, ⟨0, 0⟩⟩
      true true 0 0).2.1,
   (C8_speed_factor_validation ⟨⟨2, 0⟩, ⟨4, 0⟩, 0, 1, false⟩ ⟨⟨0, 0⟩, ⟨0, 0⟩⟩
      true true 0 0).2.2.1 true,
   (C8_speed_factor_validation ⟨⟨2, 0⟩, ⟨4, 0⟩, 0, 1, false⟩ ⟨⟨0, 0⟩, ⟨0, 0⟩⟩
      true true 0 0).2.2.2 2 (by norm_num) rfl⟩

/-- C5: at most one live instance per clock kind: construction of a kind
fails with `AlreadyExists` exactly while that kind's flag is set and
otherwise sets the flag; a successful construction of one kind leaves the
other kinds' flags untouched, so different kinds can be constructed
concurrently; destruction always clears its kind's flag and a new
instance of that kind can then be constructed. The three concrete
constructors delegate to the shared body with their own flag. -/
theorem C5_singleton_per_kind (k k2 : ClockKind) (flags : SingletonFlags)
    (base base2 : ITimer) (i v : Timeval) :
    (flags.get k = true → construct_kind k flags base = (.error .instanceExists, flags))
    ∧ (flags.get k = false →
        construct_kind k flags base = (.ok base, flags.set k true))
    ∧ (k ≠ k2 → (flags.set k true).get k2 = flags.get k2)
    ∧ ((destruct_kind k flags).get k = false)
    ∧ (construct_kind k (destruct_kind k flags) base
        = (.ok base, (destruct_kind k flags).set k true))
    ∧ (flags.get k = false → flags.get k2 = false → k ≠ k2 →
        construct_kind k2 (construct_kind k flags base).2 base2
          = (.ok base2, (flags.set k true).set k2 true))
    ∧ (ITimer_Real.construct flags i v
        = construct_kind .real flags (ITimer.construct_tv2 ITIMER_REAL i v))
    ∧ (ITimer_Virtual.construct flags i v
        = construct_kind .virt flags (ITimer.construct_tv2 ITIMER_VIRTUAL i v))
    ∧ (ITimer_Prof.construct flags i v
        = construct_kind .prof flags (ITimer.construct_tv2 ITIMER_PROF i v)) := by
  obtain ⟨fr, fv, fp⟩ := flags
  refine ⟨fun h => ?_, fun h => ?_, fun h => ?_, ?_, ?_, fun h1 h2 h3 => ?_, rfl, rfl, rfl⟩ <;>
    cases k <;> cases k2 <;>
      simp_all [construct_kind, destruct_kind, SingletonFlags.get, SingletonFlags.set]

/-- C5 witness: with no instance alive, a Real timer can be constructed;
a second Real construction fails with `AlreadyExists`; a Virtual timer
can still be constructed concurrently; after destructing the Real timer a
new Real instance succeeds. -/
theorem C5_singleton_per_kind_witness :
    (construct_kind .real ⟨false, false, false⟩ (ITimer.construct_tv 0 ⟨1, 0⟩)
      = (.ok (ITimer.construct_tv 0 ⟨1, 0⟩), ⟨true, false, false⟩))
    ∧ (construct_kind .real ⟨true, false, false⟩ (ITimer.construct_tv 0 ⟨1, 0⟩)
      = (.error .instanceExists, ⟨true, false, false⟩))
    ∧ (construct_kind .virt ⟨true, false, false⟩ (ITimer.construct_tv 1 ⟨1, 0⟩)
      = (.ok (ITimer.construct_tv 1 ⟨1, 0⟩), ⟨true, true, false⟩))
    ∧ ((destruct_kind .real ⟨true, true, false⟩).real_exists = false)
    ∧ (construct_kind .real (destruct_kind .real ⟨true, true, false⟩)
        (ITimer.construct_tv 0 ⟨1, 0⟩)
      = (.ok (ITimer.construct_tv 0 ⟨1, 0⟩), ⟨true, true, false⟩)) :=
  ⟨(C5_singleton_per_kind .real .virt ⟨false, false, false⟩ (ITimer.construct_tv 0 ⟨1, 0⟩)
      (ITimer.construct_tv 0 ⟨1, 0⟩) ⟨1, 0⟩ ⟨1, 0⟩).2.1 rfl,
   (C5_singleton_per_kind .real .virt ⟨true, false, false⟩ (ITimer.construct_tv 0 ⟨1, 0⟩)
      (ITimer.construct_tv 0 ⟨1, 0⟩) ⟨1, 0⟩ ⟨1, 0⟩).1 rfl,
   (C5_singleton_per_kind .virt .real ⟨true, false, false⟩ (ITimer.construct_tv 1 ⟨1, 0⟩)
      (ITimer.construct_tv 1 ⟨1, 0⟩) ⟨1, 0⟩ ⟨1, 0⟩).2.1 rfl,
   (C5_singleton_per_kind .real .virt ⟨true, true, false⟩ (ITimer.construct_tv 0 ⟨1, 0⟩)
      (ITimer.construct_tv 0 ⟨1, 0⟩) ⟨1, 0⟩ ⟨1, 0⟩).2.2.2.1,
   (C5_singleton_per_kind .real .virt ⟨true, true, false⟩ (ITimer.construct_tv 0 ⟨1, 0⟩)
      (ITimer.construct_tv 0 ⟨1, 0⟩) ⟨1, 0⟩ ⟨1, 0⟩).2.2.2.2.1⟩

/-- C6, counterexample: the claim states that the snapshot record holds
the live (speed-scaled) values while Running. On a running timer with
speed factor 2, normalized interval 4.0 s and live clock state (interval
2.0 s, value 1.0 s), `to_fstream` writes the record (4.0 s, 2.0 s) — the
normalized interval and the re-normalized value — which differs from the
live pair (2.0 s, 1.0 s). -/
theorem C6_counterexample :
    ((⟨⟨9, 9⟩, ⟨4, 0⟩, 0, 2, true⟩ : ITimer).to_fstream ⟨⟨2, 0⟩, ⟨1, 0⟩⟩ true 0 []).2
      = [⟨⟨4, 0⟩, ⟨2, 0⟩⟩]
    ∧ (⟨⟨4, 0⟩, ⟨2, 0⟩⟩ : ITimerVal) ≠ ⟨⟨2, 0⟩, ⟨1, 0⟩⟩ :=
  ⟨by simp [ITimer.to_fstream, tvMul_one_by_two], by decide⟩

/-- C6 (amended): `to_fstream` appends one fixed-size record whose
interval field is always the stored normalized `timer_interval`, and
whose value field is the captured live remaining-value multiplied by
`speed_factor` (its normalized form) when Running and the stored
`timer_value` when Stopped; the record consists of those two durations
only, so it contains neither the clock kind nor the speed factor: stopped
timers agreeing on the two normalized fields write identical records
whatever their `type` and `speed_factor`. -/
theorem C6_to_fstream (t t' : ITimer) (clk : ITimerVal) (ok : Bool) (errno : ℤ)
    (stream : List ITimerVal) :
    (t.running = true → ok = true →
      t.to_fstream clk ok errno stream
        = (.ok (), stream ++ [⟨t.timer_interval, tvMul clk.it_value t.speed_factor⟩]))
    ∧ (t.running = true → ok = false →
      t.to_fstream clk ok errno stream = (.error (.clockReadFailed errno), stream))
    ∧ (t.running = false →
      t.to_fstream clk ok errno stream
        = (.ok (), stream ++ [⟨t.timer_interval, t.timer_value⟩]))
    ∧ (t.running = false → t'.running = false →
       t'.timer_interval = t.timer_interval → t'.timer_value = t.timer_value →
      t'.to_fstream clk ok errno stream = t.to_fstream clk ok errno stream) := by
  refine ⟨fun h hok => ?_, fun h hok => ?_, fun h => ?_, fun h h' hi hv => ?_⟩
  · simp [ITimer.to_fstream, h, hok]
  · simp [ITimer.to_fstream, h, hok]
  · simp [ITimer.to_fstream, h]
  · simp [ITimer.to_fstream, h, h', hi, hv]

/-- C6 witness: the running timer of the counterexample writes the record
(4.0 s, 2.0 s); a stopped timer with the same normalized fields but a
different type and speed factor writes the identical record. -/
theorem C6_to_fstream_witness :
    ((⟨⟨9, 9⟩, ⟨4, 0⟩, 0, 2, true⟩ : ITimer).to_fstream ⟨⟨2, 0⟩, ⟨1, 0⟩⟩ true 0 []
      = (.ok (), [⟨⟨4, 0⟩, ⟨2, 0⟩⟩]))
    ∧ ((⟨⟨2, 0⟩, ⟨4, 0⟩, 1, 5, false⟩ : ITimer).to_fstream ⟨⟨0, 0⟩, ⟨0, 0⟩⟩ true 0 []
      = (⟨⟨2, 0⟩, ⟨4, 0⟩, 2, 9, false⟩ : ITimer).to_fstream ⟨⟨0, 0⟩, ⟨0, 0⟩⟩ true 0 []) :=
  ⟨((C6_to_fstream ⟨⟨9, 9⟩, ⟨4, 0⟩, 0, 2, true⟩ ⟨⟨9, 9⟩, ⟨4, 0⟩, 0, 2, true⟩
      ⟨⟨2, 0⟩, ⟨1, 0⟩⟩ true 0 []).1 rfl rfl).trans
    (by rw [tvMul_one_by_two]; rfl),
   (C6_to_fstream ⟨⟨2, 0⟩, ⟨4, 0⟩, 2, 9, false⟩ ⟨⟨2, 0⟩, ⟨4, 0⟩, 1, 5, false⟩
      ⟨⟨0, 0⟩, ⟨0, 0⟩⟩ true 0 []).2.2.2 rfl rfl rfl rfl⟩

/-- C7: for a Stopped timer, a `to_fstream` snapshot read back by
`from_fstream` into any Stopped timer reproduces exactly the normalized
interval and value the writer had, while the reader's `speed_factor`
(and `type` and `running`) stay unchanged — a non-1.0 speed factor is not
restored by the read; `from_fstream` on a Running timer fails with
`TimerRunning` and changes nothing. -/
theorem C7_snapshot_roundtrip (t t2 : ITimer) (clk : ITimerVal) (ok : Bool)
    (errno : ℤ) (stream : List ITimerVal) :
    (t.running = false → t2.running = false →
      t2.from_fstream (t.to_fstream clk ok errno []).2
        = (.ok (), ⟨t.timer_value, t.timer_interval, t2.type, t2.speed_factor, false⟩))
    ∧ (t.running = true →
      t.from_fstream stream = (.error .timerRunning, t)) := by
  refine ⟨fun h h2 => ?_, fun h => ?_⟩
  · simp [ITimer.to_fstream, ITimer.from_fstream, h, h2]
  · simp [ITimer.from_fstream, h]

/-- C7 witness: a stopped timer with speed factor 3 writes its snapshot;
reading it back into a stopped timer with speed factor 7 restores value
2.0 s and interval 5.0 s but keeps the reader's factor 7; `from_fstream`
on a running timer fails with `TimerRunning`. -/
theorem C7_snapshot_roundtrip_witness :
    ((⟨⟨0, 0⟩, ⟨0, 0⟩, 0, 7, false⟩ : ITimer).from_fstream
        ((⟨⟨2, 0⟩, ⟨5, 0⟩, 0, 3, false⟩ : ITimer).to_fstream ⟨⟨0, 0⟩, ⟨0, 0⟩⟩ true 0 []).2
      = (.ok (), ⟨⟨2, 0⟩, ⟨5, 0⟩, 0, 7, false⟩))
    ∧ ((⟨⟨2, 0⟩, ⟨5, 0⟩, 0, 3, true⟩ : ITimer).from_fstream []
      = (.error .timerRunning, ⟨⟨2, 0⟩, ⟨5, 0⟩, 0, 3, true⟩)) :=
  ⟨(C7_snapshot_roundtrip ⟨⟨2, 0⟩, ⟨5, 0⟩, 0, 3, false⟩ ⟨⟨0, 0⟩, ⟨0, 0⟩, 0, 7, false⟩
      ⟨⟨0, 0⟩, ⟨0, 0⟩⟩ true 0 []).1 rfl rfl,
   (C7_snapshot_roundtrip ⟨⟨2, 0⟩, ⟨5, 0⟩, 0, 3, true⟩ ⟨⟨2, 0⟩, ⟨5, 0⟩, 0, 3, true⟩
      ⟨⟨0, 0⟩, ⟨0, 0⟩⟩ true 0 []).2 rfl⟩

/-- C10: construction (all four base constructor overloads) and
`set_interval_value` while Stopped always succeed and store their inputs
verbatim, with no validation; rejection of negative or degenerate values
happens only in `start`, whose negativity guard inspects only the
whole-seconds field of the scaled interval and value, so a scaled
interval with zero seconds and negative microseconds passes every guard
and `start` succeeds. -/
theorem C10_no_input_validation (ty : ℤ) (i v : Timeval) (q r : ℚ) (t : ITimer)
    (clk : ITimerVal) (errno : ℤ) :
    (ITimer.construct_tv ty i = ⟨i, i, ty, 1, false⟩)
    ∧ (ITimer.construct_tv2 ty i v = ⟨v, i, ty, 1, false⟩)
    ∧ (ITimer.construct_d ty q
        = ⟨double_to_timeval q, double_to_timeval q, ty, 1, false⟩)
    ∧ (ITimer.construct_d2 ty q r
        = ⟨double_to_timeval r, double_to_timeval q, ty, 1, false⟩)
    ∧ (t.running = false →
      t.set_interval_value i v = (.ok (), ⟨v, i, t.type, t.speed_factor, t.running⟩))
    ∧ (t.running = false →
       (tvDiv t.timer_interval t.speed_factor).tv_sec = 0 →
       (tvDiv t.timer_interval t.speed_factor).tv_usec < 0 →
       ¬ (tvDiv t.timer_value t.speed_factor).tv_sec < 0 →
      t.start clk true errno
        = (.ok (), ⟨t.timer_value, t.timer_interval, t.type, t.speed_factor, true⟩,
           ⟨tvDiv t.timer_interval t.speed_factor,
            tvDiv t.timer_value t.speed_factor⟩)) := by
  refine ⟨rfl, rfl, rfl, rfl, fun h => ?_, fun h hs hu hv => ?_⟩
  · simp [ITimer.set_interval_value, h]
  · have hns : ¬ (tvDiv t.timer_interval t.speed_factor).tv_sec < 0 := by omega
    have hnz : ¬ ((tvDiv t.timer_interval t.speed_factor).tv_sec = 0 ∧
        (tvDiv t.timer_interval t.speed_factor).tv_usec = 0) := by omega
    simp [ITimer.start, h, hns, hv, hnz]

/-- C10 witness: a timer constructed with the malformed interval
`{0 s, -5 us}` and value 1.0 s is stored as-is, and with speed factor 1
`start` succeeds — the scaled interval `{0, -5}` passes the
whole-seconds negativity guard and the all-zero degeneracy guard. -/
theorem C10_no_input_validation_witness :
    (ITimer.construct_tv2 0 ⟨0, -5⟩ ⟨1, 0⟩ = ⟨⟨1, 0⟩, ⟨0, -5⟩, 0, 1, false⟩)
    ∧ ((⟨⟨1, 0⟩, ⟨0, -5⟩, 0, 1, false⟩ : ITimer).start ⟨⟨0, 0⟩, ⟨0, 0⟩⟩ true 0
      = (.ok (), ⟨⟨1, 0⟩, ⟨0, -5⟩, 0, 1, true⟩, ⟨⟨0, -5⟩, ⟨1, 0⟩⟩)) :=
  ⟨(C10_no_input_validation 0 ⟨0, -5⟩ ⟨1, 0⟩ 1 1 (ITimer.construct_tv 0 ⟨1, 0⟩)
      ⟨⟨0, 0⟩, ⟨0, 0⟩⟩ 0).2.1,
   ((C10_no_input_validation 0 ⟨0, -5⟩ ⟨1, 0⟩ 1 1 ⟨⟨1, 0⟩, ⟨0, -5⟩, 0, 1, false⟩
      ⟨⟨0, 0⟩, ⟨0, 0⟩⟩ 0).2.2.2.2.2 rfl
      (by rw [tvDiv_negusec_by_one])
      (by rw [tvDiv_negusec_by_one]; decide)
      (by rw [tvDiv_one_by_one]; decide)).trans
    (by rw [tvDiv_negusec_by_one, tvDiv_one_by_one])⟩

end Cxxitimer
